import Mathlib

/-!
Formal model of an ICT price-action trading bot, translated from its
TypeScript sources: the risk manager, the market-structure analyzer and
displacement scorer, the fair-value-gap detector and state machine, the
sweep detector, the exit strategy, the paper trader and the SMS debounce
step.  Numbers are modelled by the rationals, timestamps by the integers.
String-valued identifiers (UUIDs, log messages, formatted reason strings)
carry no decision logic and are abstracted: rejection reasons become a
plain tag, ids are dropped.  The theorems at the end of the file settle
the documented properties of these functions.
-/

-- ============================================================
-- Shared data model (src/types/index.ts)
-- ============================================================

/-- The five timeframes the bot ingests. -/
inductive Timeframe
  | m5 | m15 | h1 | h4 | d1
  deriving DecidableEq, Repr

/-- One OHLCV candle.  `open_` is the source's `open` field (a Lean keyword). -/
structure Candle where
  timestamp : ℤ
  timeframe : Timeframe
  open_ : ℚ
  high : ℚ
  low : ℚ
  close : ℚ
  volume : ℚ
  deriving DecidableEq, Repr

/-- Swing type: `SWING_HIGH` or `SWING_LOW`. -/
inductive SwingType
  | SWING_HIGH | SWING_LOW
  deriving DecidableEq, Repr

/-- A confirmed swing point.  The source's `id`, `method`, `isValid` and
`candleIndex` fields are metadata not read by the analyzed functions and
are omitted. -/
structure Swing where
  timestamp : ℤ
  timeframe : Timeframe
  type : SwingType
  level : ℚ
  deriving DecidableEq, Repr

/-- Market-structure trend classification. -/
inductive StructureTrend
  | BULLISH | BEARISH | TRANSITION | UNDEFINED
  deriving DecidableEq, Repr

/-- Structural events: continuation (BMS), change of character (CHOCH),
shift in market structure (SMS), or nothing. -/
inductive StructureEvent
  | BMS_BULLISH | BMS_BEARISH
  | CHOCH_BULLISH | CHOCH_BEARISH
  | SMS_BULLISH | SMS_BEARISH
  | NONE
  deriving DecidableEq, Repr

/-- Market structure state produced by `analyzeStructure`. -/
structure StructureState where
  trend : StructureTrend
  lastHH : Option Swing
  lastHL : Option Swing
  lastLH : Option Swing
  lastLL : Option Swing
  criticalSwing : Option Swing
  lastEvent : StructureEvent
  deriving DecidableEq, Repr

/-- Liquidity level kinds. -/
inductive LiquidityType
  | BSL | SSL | EQH | EQL | PDH | PDL | PWH | PWL | SESSION_HIGH | SESSION_LOW
  deriving DecidableEq, Repr

/-- Liquidity level lifecycle states. -/
inductive LiquidityState
  | ACTIVE | SWEPT | EXPIRED
  deriving DecidableEq, Repr

/-- A liquidity level (string id and swept-at timestamp omitted as metadata). -/
structure LiquidityLevel where
  timestamp : ℤ
  level : ℚ
  type : LiquidityType
  score : ℕ
  state : LiquidityState
  deriving DecidableEq, Repr

/-- Fair value gap direction. -/
inductive FVGType
  | BULLISH | BEARISH
  deriving DecidableEq, Repr

/-- Fair value gap fill states. -/
inductive FVGState
  | OPEN | PARTIALLY_FILLED | CE_TOUCHED | FILLED | VIOLATED
  deriving DecidableEq, Repr

/-- Fair value gap quality grades. -/
inductive FVGQuality
  | HIGH | MEDIUM | LOW
  deriving DecidableEq, Repr

/-- A fair value gap.  The source's deterministic string `id` (a rendering
of timestamp/timeframe/type/bounds) is omitted; all decision logic reads
the structured fields kept here. -/
structure FairValueGap where
  timestamp : ℤ
  timeframe : Timeframe
  type : FVGType
  top : ℚ
  bottom : ℚ
  ce : ℚ
  quality : FVGQuality
  state : FVGState
  inDisplacement : Bool
  deriving DecidableEq, Repr

/-- Sweep confirmation speed. -/
inductive SweepConfirmation
  | IMMEDIATE | DELAYED
  deriving DecidableEq, Repr

/-- A detected liquidity sweep (string id omitted). -/
structure Sweep where
  timestamp : ℤ
  liquidityLevel : LiquidityLevel
  confirmation : SweepConfirmation
  delay : ℕ
  score : ℕ
  extreme : ℚ
  deriving DecidableEq, Repr

/-- Trade direction. -/
inductive TradeDirection
  | LONG | SHORT
  deriving DecidableEq, Repr

/-- Trade lifecycle statuses.  The declared TypeScript union lists OPEN,
TP1_HIT, TP2_HIT, STOPPED, MANUAL and TIME_EXIT; the execution layer also
assigns the literals PENDING, KILLED and STRUCTURAL, so all are included. -/
inductive TradeStatus
  | PENDING | OPEN | TP1_HIT | TP2_HIT | STOPPED | MANUAL | TIME_EXIT | KILLED | STRUCTURAL
  deriving DecidableEq, Repr

/-- A (paper) trade.  String ids and analytics metadata are omitted;
numeric fields that are optional in the source stay `Option`. -/
structure Trade where
  timestamp : ℤ
  direction : TradeDirection
  entryPrice : ℚ
  exitPrice : Option ℚ
  sizeUsdt : ℚ
  leverage : ℚ
  stopLoss : ℚ
  tp1Level : ℚ
  tp2Level : ℚ
  tp1Hit : Bool
  pnlUsdt : Option ℚ
  pnlPct : Option ℚ
  rrAchieved : Option ℚ
  displacementScore : ℕ
  status : TradeStatus
  isPaper : Bool
  deriving DecidableEq, Repr

-- ============================================================
-- Configuration constants (src/config/risk.ts, src/config/scoring.ts)
-- ============================================================

namespace RiskConfig

/-- 1% of account per trade. -/
def maxRiskPerTrade : ℚ := 1/100

/-- 0.5% after a single loss. -/
def postLossRisk : ℚ := 5/1000

/-- 0.25% after two consecutive losses. -/
def post2LossRisk : ℚ := 25/10000

/-- 2% max daily drawdown cap. -/
def maxDailyLoss : ℚ := 2/100

/-- 5% max weekly drawdown cap. -/
def maxWeeklyDrawdown : ℚ := 5/100

/-- 15% from peak triggers the kill switch. -/
def killSwitchDrawdown : ℚ := 15/100

/-- Only 1 trade per day. -/
def maxTradesPerDay : ℕ := 1

/-- Minimum required risk:reward ratio to enter. -/
def minRR : ℚ := 2

/-- Default leverage. -/
def defaultLeverage : ℚ := 3

/-- Close 50% of position at TP1. -/
def tp1ClosePercent : ℚ := 1/2

/-- 0.1% structural SL buffer beyond swing. -/
def slBufferPercent : ℚ := 1/1000

end RiskConfig

namespace ScoringConfig

/-- Minimum displacement score for a valid SMS. -/
def minScoreForSMS : ℕ := 6

/-- ATR period for the displacement ratio. -/
def atrPeriod : ℕ := 14

/-- Volume lookback for the displacement volume ratio. -/
def volumeLookback : ℕ := 20

/-- Candles to look forward for sweep confirmation. -/
def lookforwardCandles : ℕ := 5

/-- Minimum sweep score to trigger the entry sequence. -/
def minScoreForTrigger : ℕ := 5

end ScoringConfig

-- ============================================================
-- Risk manager (src/execution/riskManager.ts)
-- ============================================================

/-- Mutable module-level risk state, passed explicitly here. -/
structure RiskState where
  consecutiveLosses : ℕ
  tradesToday : ℕ
  dailyPnlUsdt : ℚ
  weeklyPnlUsdt : ℚ
  peakEquity : ℚ
  currentEquity : ℚ
  deriving DecidableEq, Repr

/-- Which gate blocked a risk check; stands in for the source's formatted
reason string, which carries no decision logic. -/
inductive RiskReason
  | killSwitch | weeklyDrawdown | dailyLossCap | maxTradesReached | rrTooLow | ok
  deriving DecidableEq, Repr

/-- Result of `checkRiskAllowance`. -/
structure RiskCheck where
  allowed : Bool
  reason : RiskReason
  riskPercent : ℚ
  positionSizeUsdt : ℚ
  leverage : ℚ
  deriving DecidableEq, Repr

/-- The `blocked` helper of `checkRiskAllowance`. -/
def blockedCheck (r : RiskReason) : RiskCheck :=
  { allowed := false, reason := r, riskPercent := 0, positionSizeUsdt := 0, leverage := 0 }

/-- Position size in USDT from risk parameters:
riskAmount = balance * riskPercent; stopDistancePct = |entry - stop| / entry;
size = riskAmount / stopDistancePct * leverage, capped at balance * leverage. -/
def calculatePositionSize (accountBalance riskPercent entryPrice stopLoss leverage : ℚ) : ℚ :=
  let stopDistancePct := |entryPrice - stopLoss| / entryPrice
  if stopDistancePct = 0 then 0
  else
    let riskAmountUsdt := accountBalance * riskPercent
    min (riskAmountUsdt / stopDistancePct * leverage) (accountBalance * leverage)

/-- Whether a new trade is allowed, checking every risk gate in priority
order: kill switch, weekly drawdown, daily loss cap, max trades per day,
minimum R:R, then dynamic risk sizing by consecutive-loss streak. -/
def checkRiskAllowance (rs : RiskState) (accountBalance proposedRR entryPrice stopLoss : ℚ) :
    RiskCheck :=
  if 0 < rs.peakEquity ∧
      RiskConfig.killSwitchDrawdown ≤ (rs.peakEquity - rs.currentEquity) / rs.peakEquity then
    blockedCheck .killSwitch
  else if 0 < rs.peakEquity ∧
      rs.weeklyPnlUsdt / rs.peakEquity ≤ -RiskConfig.maxWeeklyDrawdown then
    blockedCheck .weeklyDrawdown
  else if 0 < rs.currentEquity ∧
      rs.dailyPnlUsdt / rs.currentEquity ≤ -RiskConfig.maxDailyLoss then
    blockedCheck .dailyLossCap
  else if RiskConfig.maxTradesPerDay ≤ rs.tradesToday then
    blockedCheck .maxTradesReached
  else if proposedRR < RiskConfig.minRR then
    blockedCheck .rrTooLow
  else
    let riskPercent :=
      if rs.consecutiveLosses = 0 then RiskConfig.maxRiskPerTrade
      else if rs.consecutiveLosses = 1 then RiskConfig.postLossRisk
      else RiskConfig.post2LossRisk
    let leverage := RiskConfig.defaultLeverage
    { allowed := true
    , reason := .ok
    , riskPercent := riskPercent
    , positionSizeUsdt :=
        calculatePositionSize accountBalance riskPercent entryPrice stopLoss leverage
    , leverage := leverage }

/-- True when drawdown from peak equity reaches the kill-switch threshold. -/
def isKillSwitchActive (rs : RiskState) : Bool :=
  if rs.peakEquity ≤ 0 then false
  else if RiskConfig.killSwitchDrawdown ≤ (rs.peakEquity - rs.currentEquity) / rs.peakEquity then
    true
  else false

-- ============================================================
-- Displacement scorer (src/analyzer/displacementScorer.ts)
-- ============================================================

/-- Result of `scoreDisplacement`.  The source's direction union
BULLISH/BEARISH is represented by `FVGType`. -/
structure DisplacementResult where
  score : ℕ
  totalRange : ℚ
  atrRatio : ℚ
  volumeRatio : ℚ
  fvgCount : ℕ
  fvgs : List FairValueGap
  bodyRatio : ℚ
  direction : FVGType
  deriving DecidableEq, Repr

/-- Placeholder candle used for out-of-range indexing; every index the
translated loops form is in range, so it is never read. -/
def dummyCandle : Candle :=
  { timestamp := 0, timeframe := .m5, open_ := 0, high := 0, low := 0, close := 0, volume := 0 }

/-- Sum of true ranges of consecutive candle pairs, seeded with the
previous candle: TR = max(high-low, |high-prevClose|, |low-prevClose|). -/
def trueRangeSum : Candle → List Candle → ℚ
  | _, [] => 0
  | prev, c :: rest =>
      max (c.high - c.low) (max |c.high - prev.close| |c.low - prev.close|) +
        trueRangeSum c rest

/-- Average True Range over the last `min (length - 1) period` pairs. -/
def calculateATR (candles : List Candle) (period : ℕ) : ℚ :=
  if candles.length < 2 then 0
  else
    let limit := min (candles.length - 1) period
    match candles.drop (candles.length - limit - 1) with
    | [] => 0
    | p :: rest => trueRangeSum p rest / limit

/-- Gap record built by `detectFVGsInRange`: quality LOW, state OPEN,
inDisplacement true, CE at the midpoint. -/
def mkRangeFVG (tf : Timeframe) (ts : ℤ) (ty : FVGType) (top bottom : ℚ) : FairValueGap :=
  { timestamp := ts, timeframe := tf, type := ty, top := top, bottom := bottom
  , ce := (top + bottom) / 2, quality := .LOW, state := .OPEN, inDisplacement := true }

/-- Detect FVGs between indices `fromIndex` and `toIndex` (inclusive):
each window (prev, curr, next) yields a bullish gap when prev.high <
next.low and a bearish gap when next.high < prev.low. -/
def detectFVGsInRange (candles : List Candle) (fromIndex toIndex : ℕ) (tf : Timeframe) :
    List FairValueGap :=
  let start := max fromIndex 1
  let stop := min toIndex (candles.length - 2)
  (List.range' start (stop + 1 - start)).flatMap fun i =>
    let prev := candles.getD (i - 1) dummyCandle
    let curr := candles.getD i dummyCandle
    let next := candles.getD (i + 1) dummyCandle
    (if prev.high < next.low then [mkRangeFVG tf curr.timestamp .BULLISH next.low prev.high]
     else []) ++
    (if next.high < prev.low then [mkRangeFVG tf curr.timestamp .BEARISH prev.low next.high]
     else [])

/-- Score the displacement quality of candles[fromIndex..toIndex] (0-10):
ATR-ratio term (0-3) + volume-ratio term (0-2) + body-ratio term (0-2) +
FVG-count term (0-3), capped at 10. -/
def scoreDisplacement (candles : List Candle) (fromIndex toIndex : ℕ) : DisplacementResult :=
  let zero : DisplacementResult :=
    { score := 0, totalRange := 0, atrRatio := 0, volumeRatio := 0
    , fvgCount := 0, fvgs := [], bodyRatio := 0, direction := .BULLISH }
  if candles.length ≤ toIndex ∨ toIndex < fromIndex then zero
  else
    match (candles.take (toIndex + 1)).drop fromIndex with
    | [] => zero
    | first :: rest =>
      let dispCandles := first :: rest
      let lookbackEnd := min (fromIndex + 1) candles.length
      let atr := calculateATR (candles.take lookbackEnd) ScoringConfig.atrPeriod
      let highestHigh := (dispCandles.map (·.high)).foldl max first.high
      let lowestLow := (dispCandles.map (·.low)).foldl min first.low
      let totalRange := highestHigh - lowestLow
      let firstClose := first.close
      let lastClose := (rest.getLastD first).close
      let direction : FVGType := if firstClose ≤ lastClose then .BULLISH else .BEARISH
      let atrRatio := if 0 < atr then totalRange / atr else 0
      let atrScore : ℕ :=
        if 2 ≤ atrRatio then 3 else if 3/2 ≤ atrRatio then 2 else if 1 ≤ atrRatio then 1 else 0
      let volStart := fromIndex - ScoringConfig.volumeLookback
      let lookbackCandles := (candles.take fromIndex).drop volStart
      let avgVolume :=
        if lookbackCandles.length ≠ 0 then
          (lookbackCandles.map (·.volume)).sum / lookbackCandles.length
        else 0
      let dispAvgVolume := (dispCandles.map (·.volume)).sum / dispCandles.length
      let volumeRatio := if 0 < avgVolume then dispAvgVolume / avgVolume else 0
      let volumeScore : ℕ := if 3 ≤ volumeRatio then 2 else if 2 ≤ volumeRatio then 1 else 0
      let bodyRatios := dispCandles.map fun c =>
        let range := c.high - c.low
        if 0 < range then |c.close - c.open_| / range else 0
      let bodyRatio := bodyRatios.sum / bodyRatios.length
      let bodyScore : ℕ := if 7/10 ≤ bodyRatio then 2 else if 1/2 ≤ bodyRatio then 1 else 0
      let fvgs := detectFVGsInRange candles fromIndex toIndex first.timeframe
      let fvgScore : ℕ :=
        if 3 ≤ fvgs.length then 3 else if fvgs.length = 2 then 2
        else if fvgs.length = 1 then 1 else 0
      let score := min 10 (atrScore + volumeScore + bodyScore + fvgScore)
      { score := score, totalRange := totalRange, atrRatio := atrRatio
      , volumeRatio := volumeRatio, fvgCount := fvgs.length, fvgs := fvgs
      , bodyRatio := bodyRatio, direction := direction }

-- ============================================================
-- FVG detector (src/analyzer/fvgDetector.ts)
-- ============================================================

/-- Quality of a gap at the impulse candle: HIGH when inside a qualifying
displacement with body ratio > 0.7, MEDIUM when either holds, else LOW. -/
def assessFVGQuality (candles : List Candle) (impulseIndex : ℕ) : FVGQuality :=
  let impulse := candles.getD impulseIndex dummyCandle
  let range := impulse.high - impulse.low
  let bodyRatio := if 0 < range then |impulse.close - impulse.open_| / range else 0
  let lookbackStart := impulseIndex - 5
  let dispResult := scoreDisplacement candles lookbackStart impulseIndex
  let inDisplacement := ScoringConfig.minScoreForSMS ≤ dispResult.score
  if inDisplacement ∧ 7/10 < bodyRatio then .HIGH
  else if inDisplacement ∨ 1/2 < bodyRatio then .MEDIUM
  else .LOW

/-- Gap record built by `detectFVGs`: assessed quality, state OPEN,
inDisplacement tracking quality, CE at the midpoint. -/
def mkDetectedFVG (tf : Timeframe) (ts : ℤ) (ty : FVGType) (top bottom : ℚ) (q : FVGQuality) :
    FairValueGap :=
  { timestamp := ts, timeframe := tf, type := ty, top := top, bottom := bottom
  , ce := (top + bottom) / 2, quality := q, state := .OPEN
  , inDisplacement := decide (q ≠ .LOW) }

/-- Detect all FVGs in a candle array by scanning every 3-candle window. -/
def detectFVGs (candles : List Candle) (tf : Timeframe) : List FairValueGap :=
  if candles.length < 3 then []
  else
    (List.range' 1 (candles.length - 2)).flatMap fun i =>
      let prev := candles.getD (i - 1) dummyCandle
      let curr := candles.getD i dummyCandle
      let next := candles.getD (i + 1) dummyCandle
      (if prev.high < next.low then
        [mkDetectedFVG tf curr.timestamp .BULLISH next.low prev.high (assessFVGQuality candles i)]
       else []) ++
      (if next.high < prev.low then
        [mkDetectedFVG tf curr.timestamp .BEARISH prev.low next.high (assessFVGQuality candles i)]
       else [])

/-- One candle of the state-update loop in `updateFVGStates` (the loop
breaks once VIOLATED is reached, modelled by leaving VIOLATED fixed). -/
def fvgCandleStep (fvg : FairValueGap) (state : FVGState) (candle : Candle) : FVGState :=
  if state = .VIOLATED then state
  else if fvg.type = .BULLISH then
    if candle.close < fvg.bottom then .VIOLATED
    else if state = .PARTIALLY_FILLED ∧ candle.low ≤ fvg.ce then .CE_TOUCHED
    else if state = .OPEN ∧ candle.low < fvg.top then .PARTIALLY_FILLED
    else state
  else
    if fvg.top < candle.close then .VIOLATED
    else if state = .PARTIALLY_FILLED ∧ fvg.ce ≤ candle.high then .CE_TOUCHED
    else if state = .OPEN ∧ fvg.bottom < candle.high then .PARTIALLY_FILLED
    else state

/-- Per-gap body of `updateFVGStates`: FILLED/VIOLATED gaps are returned
unchanged, otherwise the candle loop advances the state. -/
def updateFVGState (fvg : FairValueGap) (recentCandles : List Candle) : FairValueGap :=
  if fvg.state = .FILLED ∨ fvg.state = .VIOLATED then fvg
  else
    let state := recentCandles.foldl (fvgCandleStep fvg) fvg.state
    if state ≠ fvg.state then { fvg with state := state } else fvg

/-- Update all gap states against the recent candles. -/
def updateFVGStates (fvgs : List FairValueGap) (recentCandles : List Candle) :
    List FairValueGap :=
  if recentCandles.length = 0 then fvgs
  else fvgs.map fun fvg => updateFVGState fvg recentCandles

/-- Bullish gap in state CE_TOUCHED, used to exercise the far-boundary
close-through transition of `updateFVGStates`. -/
def fvgCexGap : FairValueGap :=
  { timestamp := 0, timeframe := .m5, type := .BULLISH, top := 110, bottom := 100
  , ce := 105, quality := .HIGH, state := .CE_TOUCHED, inDisplacement := true }

/-- Candle whose close (95) passes fully through the far boundary
(bottom 100) of `fvgCexGap`. -/
def fvgCexCandle : Candle :=
  { timestamp := 1, timeframe := .m5, open_ := 108, high := 109, low := 94
  , close := 95, volume := 1 }

/-- Bullish OPEN gap used by witnesses of the transition theorem. -/
def fvgWitGapBull : FairValueGap :=
  { timestamp := 0, timeframe := .m5, type := .BULLISH, top := 110, bottom := 100
  , ce := 105, quality := .MEDIUM, state := .OPEN, inDisplacement := false }

/-- Bearish OPEN gap used by witnesses of the transition theorem. -/
def fvgWitGapBear : FairValueGap :=
  { timestamp := 0, timeframe := .m5, type := .BEARISH, top := 110, bottom := 100
  , ce := 105, quality := .MEDIUM, state := .OPEN, inDisplacement := false }

/-- FILLED copy of the bullish witness gap. -/
def fvgWitGapFilled : FairValueGap := { fvgWitGapBull with state := .FILLED }

/-- Candle wicking into the witness gaps without closing through them. -/
def fvgWitCandle : Candle :=
  { timestamp := 1, timeframe := .m5, open_ := 108, high := 112, low := 104
  , close := 107, volume := 1 }

-- ============================================================
-- Market structure analyzer (src/analyzer/marketStructure.ts)
-- ============================================================

/-- Walk a swing list in time order carrying the previous swing,
recording the last swing whose level exceeds its predecessor in the first
slot and the last one that does not in the second (the source's
lastHH/lastLH classification loop, reused for lows as lastHL/lastLL). -/
def classifySwings : Swing → List Swing → Option Swing × Option Swing →
    Option Swing × Option Swing
  | _, [], acc => acc
  | prev, s :: rest, (hi, lo) =>
      if prev.level < s.level then classifySwings s rest (some s, lo)
      else classifySwings s rest (hi, some s)

/-- The last two elements of a list, oldest first. -/
def lastTwo {α : Type} : List α → Option (α × α)
  | [a, b] => some (a, b)
  | _ :: b :: rest => lastTwo (b :: rest)
  | _ => none

/-- Build the market-structure state from swings: stable sort by
timestamp (JS `Array.sort` is stable), split into highs and lows,
classify HH/LH and HL/LL, and derive the trend and critical swing from
the most recent pair of each kind. -/
def analyzeStructure (_candles : List Candle) (swings : List Swing) : StructureState :=
  let empty : StructureState :=
    { trend := .UNDEFINED, lastHH := none, lastHL := none, lastLH := none
    , lastLL := none, criticalSwing := none, lastEvent := .NONE }
  let sorted := List.insertionSort (fun a b => a.timestamp ≤ b.timestamp) swings
  let highs := sorted.filter fun s => decide (s.type = .SWING_HIGH)
  let lows := sorted.filter fun s => decide (s.type = .SWING_LOW)
  if highs.length < 2 ∨ lows.length < 2 then empty
  else
    let hres := match highs with
      | [] => ((none : Option Swing), (none : Option Swing))
      | h :: t => classifySwings h t (none, none)
    let lres := match lows with
      | [] => ((none : Option Swing), (none : Option Swing))
      | h :: t => classifySwings h t (none, none)
    match lastTwo highs, lastTwo lows with
    | some (h1, h2), some (l1, l2) =>
      let isHH := h1.level < h2.level
      let isHL := l1.level < l2.level
      let trend : StructureTrend :=
        if isHH ∧ isHL then .BULLISH
        else if ¬isHH ∧ ¬isHL then .BEARISH
        else .TRANSITION
      let criticalSwing :=
        if trend = .BULLISH then lres.1 else if trend = .BEARISH then hres.2 else none
      { trend := trend, lastHH := hres.1, lastHL := lres.1, lastLH := hres.2
      , lastLL := lres.2, criticalSwing := criticalSwing, lastEvent := .NONE }
    | _, _ => empty

/-- Break-of-structure / change-of-character detection on the latest
candle: in a bullish trend a close below the critical swing (last HL) is
CHOCH_BEARISH, else a close above the last HH is BMS_BULLISH; mirrored in
a bearish trend. -/
def detectBMS (candle : Candle) (state : StructureState) : StructureEvent :=
  if state.trend = .UNDEFINED ∨ state.trend = .TRANSITION then .NONE
  else if state.trend = .BULLISH then
    if state.criticalSwing.any fun cs => decide (candle.close < cs.level) then .CHOCH_BEARISH
    else if state.lastHH.any fun hh => decide (hh.level < candle.close) then .BMS_BULLISH
    else .NONE
  else
    if state.criticalSwing.any fun cs => decide (cs.level < candle.close) then .CHOCH_BULLISH
    else if state.lastLL.any fun ll => decide (candle.close < ll.level) then .BMS_BEARISH
    else .NONE

/-- Shift-in-market-structure detection: a CHOCH from `detectBMS` is
upgraded to SMS exactly when the displacement score over roughly the last
10 candles reaches the configured minimum; any other event is returned
unchanged. -/
def detectSMS (_tf : Timeframe) (candles : List Candle) (swings : List Swing) :
    StructureEvent :=
  if candles.length < 5 then .NONE
  else
    let state := analyzeStructure candles swings
    if state.trend = .UNDEFINED ∨ state.trend = .TRANSITION then .NONE
    else
      match candles.getLast? with
      | none => .NONE
      | some latestCandle =>
        let event := detectBMS latestCandle state
        if event ≠ .CHOCH_BULLISH ∧ event ≠ .CHOCH_BEARISH then event
        else
          let dispStart := candles.length - 11
          let dispResult := scoreDisplacement candles dispStart (candles.length - 1)
          if ScoringConfig.minScoreForSMS ≤ dispResult.score then
            if event = .CHOCH_BULLISH then .SMS_BULLISH else .SMS_BEARISH
          else event

/-- Swings forming a bullish structure (HH at 12, HL at 7) for the
`detectSMS` witness. -/
def smsWitSwings : List Swing :=
  [ { timestamp := 1, timeframe := .m5, type := .SWING_HIGH, level := 10 }
  , { timestamp := 2, timeframe := .m5, type := .SWING_LOW, level := 5 }
  , { timestamp := 3, timeframe := .m5, type := .SWING_HIGH, level := 12 }
  , { timestamp := 4, timeframe := .m5, type := .SWING_LOW, level := 7 } ]

/-- Last candle of the `detectSMS` witness: closes at 6, below the
critical swing level 7, producing CHOCH_BEARISH. -/
def smsWitLast : Candle :=
  { timestamp := 14, timeframe := .m5, open_ := 8, high := 9, low := 5
  , close := 6, volume := 1 }

/-- Five candles ending in `smsWitLast` for the `detectSMS` witness. -/
def smsWitCandles : List Candle :=
  [ { timestamp := 10, timeframe := .m5, open_ := 8, high := 9, low := 7
    , close := 8, volume := 1 }
  , { timestamp := 11, timeframe := .m5, open_ := 8, high := 9, low := 7
    , close := 8, volume := 1 }
  , { timestamp := 12, timeframe := .m5, open_ := 8, high := 9, low := 7
    , close := 8, volume := 1 }
  , { timestamp := 13, timeframe := .m5, open_ := 8, high := 9, low := 7
    , close := 8, volume := 1 }
  , smsWitLast ]

-- ============================================================
-- Sweep detector (src/analyzer/sweepDetector.ts)
-- ============================================================

/-- High-side liquidity types, swept by candle highs (the source's
HIGH_TYPES set). -/
def isHighType (t : LiquidityType) : Bool :=
  match t with
  | .BSL | .EQH | .PDH | .PWH | .SESSION_HIGH => true
  | _ => false

/-- Sweep score (0-10): penetration-depth term (0-3, shallower is
better), reversal-speed term (0-3, by delay), reversal-candle body-ratio
term (0-2) and level-quality term (0-2), capped at 10. -/
def computeSweepScore (level : LiquidityLevel) (extreme : ℚ) (delay : ℕ)
    (reversalBodyRatio : ℚ) : ℕ :=
  let penetrationPct := |extreme - level.level| / level.level
  let penetrationScore : ℕ :=
    if penetrationPct < 1/1000 then 3
    else if penetrationPct < 2/1000 then 2
    else if penetrationPct < 5/1000 then 1 else 0
  let speedScore : ℕ :=
    if delay = 0 then 3 else if delay = 1 then 2 else if delay ≤ 3 then 1 else 0
  let dispScore : ℕ :=
    if 6/10 ≤ reversalBodyRatio then 2 else if 4/10 ≤ reversalBodyRatio then 1 else 0
  let qualityScore : ℕ := if 8 ≤ level.score then 2 else if 5 ≤ level.score then 1 else 0
  min 10 (penetrationScore + speedScore + dispScore + qualityScore)

/-- Inner confirmation scan of `detectSweep`: walk the lookforward window
for a candle closing back on the correct side of the level; a candidate
scoring 0 breaks the scan (dropped), mirrored here by returning none. -/
def scanDelayed (level : LiquidityLevel) (isHighLevel : Bool) (extreme : ℚ) :
    ℕ → List Candle → Option Sweep
  | _, [] => none
  | d, confirmCandle :: rest =>
      let delayedReversal :=
        if isHighLevel then confirmCandle.close < level.level
        else level.level < confirmCandle.close
      if delayedReversal then
        let range := confirmCandle.high - confirmCandle.low
        let bodyRatio :=
          if 0 < range then |confirmCandle.close - confirmCandle.open_| / range else 0
        let score := computeSweepScore level extreme d bodyRatio
        if score = 0 then none
        else
          some { timestamp := confirmCandle.timestamp, liquidityLevel := level
               , confirmation := .DELAYED, delay := d, score := score, extreme := extreme }
      else scanDelayed level isHighLevel extreme (d + 1) rest

/-- Outer candle scan of `detectSweep`: find a wick exceeding the level,
reject outright when penetration exceeds 1%, then look for an immediate
same-candle reversal or a delayed confirmation in the next candles. -/
def detectSweepLoop (level : LiquidityLevel) (isHighLevel : Bool) :
    List Candle → Option Sweep
  | [] => none
  | candle :: rest =>
      let levelExceeded :=
        if isHighLevel then level.level < candle.high else candle.low < level.level
      if ¬levelExceeded then detectSweepLoop level isHighLevel rest
      else
        let extreme := if isHighLevel then candle.high else candle.low
        let penetrationPct := |extreme - level.level| / level.level
        if 1/100 < penetrationPct then detectSweepLoop level isHighLevel rest
        else
          let immediateReversal :=
            if isHighLevel then candle.close < level.level else level.level < candle.close
          if immediateReversal then
            let range := candle.high - candle.low
            let bodyRatio := if 0 < range then |candle.close - candle.open_| / range else 0
            let score := computeSweepScore level extreme 0 bodyRatio
            if score = 0 then detectSweepLoop level isHighLevel rest
            else
              some { timestamp := candle.timestamp, liquidityLevel := level
                   , confirmation := .IMMEDIATE, delay := 0, score := score, extreme := extreme }
          else
            match scanDelayed level isHighLevel extreme 1
                (rest.take ScoringConfig.lookforwardCandles) with
            | some s => some s
            | none => detectSweepLoop level isHighLevel rest

/-- Attempt to detect a sweep of an ACTIVE liquidity level in the recent
candles. -/
def detectSweep (level : LiquidityLevel) (candles : List Candle) : Option Sweep :=
  if level.state ≠ .ACTIVE then none
  else detectSweepLoop level (isHighType level.type) candles

/-- BSL level at 100 with score 8, used by the sweep witness. -/
def sweepWitLevel : LiquidityLevel :=
  { timestamp := 0, level := 100, type := .BSL, score := 8, state := .ACTIVE }

/-- Candle wicking 0.05% above the witness level and closing back below
it on a moderate body, used by the sweep witness. -/
def sweepWitCandle : Candle :=
  { timestamp := 5, timeframe := .m5, open_ := 9998/100, high := 10005/100
  , low := 9988/100, close := 999/10, volume := 1 }

/-- The sweep that `detectSweep` finds at the witness level and candle. -/
def sweepWitSweep : Sweep :=
  { timestamp := 5, liquidityLevel := sweepWitLevel, confirmation := .IMMEDIATE
  , delay := 0, score := 9, extreme := 10005/100 }

-- ============================================================
-- Exit strategy (src/engine/exitStrategy.ts)
-- ============================================================

/-- NY-local wall clock (hour, minute), the output of the source's
`toNYTime` conversion.  The paper trader's `checkTimeExit` and the exit
strategy's `shouldTimeExit` call the same `toNYTime` on the same UTC
instant, so the DST calendar conversion itself is abstracted into this
shared value. -/
structure NYTime where
  hour : ℕ
  minute : ℕ
  deriving DecidableEq, Repr

/-- Exit reasons of `evaluateExit`. -/
inductive ExitReason
  | TP1 | TP2 | STOP_LOSS | TIME_EXIT | STRUCTURAL | MANUAL | KILL_SWITCH
  deriving DecidableEq, Repr

/-- Decision returned by `evaluateExit`. -/
structure ExitDecision where
  shouldExit : Bool
  reason : Option ExitReason
  exitPercent : ℚ
  newStopLoss : Option ℚ
  exitPrice : Option ℚ
  deriving DecidableEq, Repr

/-- The no-exit decision. -/
def NO_EXIT : ExitDecision :=
  { shouldExit := false, reason := none, exitPercent := 0
  , newStopLoss := none, exitPrice := none }

/-- Breakeven stop after TP1: entry plus a 0.05% buffer for a LONG,
entry minus it for a SHORT. -/
def calculateBreakevenStop (trade : Trade) : ℚ :=
  let buffer := trade.entryPrice * (5/10000)
  if trade.direction = .LONG then trade.entryPrice + buffer
  else trade.entryPrice - buffer

/-- Force-close deadline check of the exit strategy: past 15:30 NY time. -/
def shouldTimeExit (t : NYTime) : Bool :=
  decide (15 < t.hour ∨ (t.hour = 15 ∧ 30 ≤ t.minute))

/-- Structural exit test: a 15M SMS/CHOCH against the trade direction. -/
def checkStructuralExit (trade : Trade) (structure15m : StructureState) : Bool :=
  if structure15m.trend = .UNDEFINED then false
  else if trade.direction = .LONG then
    decide (structure15m.lastEvent = .SMS_BEARISH ∨ structure15m.lastEvent = .CHOCH_BEARISH)
  else
    decide (structure15m.lastEvent = .SMS_BULLISH ∨ structure15m.lastEvent = .CHOCH_BULLISH)

/-- Exit evaluation in priority order (first match wins): skip trades
already STOPPED/TP2_HIT/TIME_EXIT, then kill switch, stop loss, TP1
(only before its first execution), TP2 (only after TP1), time exit,
structural exit. -/
def evaluateExit (trade : Trade) (currentPrice : ℚ) (currentTime : NYTime)
    (structureState15m : StructureState) (isKillSwitch : Bool) : ExitDecision :=
  if trade.status = .STOPPED ∨ trade.status = .TP2_HIT ∨ trade.status = .TIME_EXIT then
    NO_EXIT
  else if isKillSwitch then
    { shouldExit := true, reason := some .KILL_SWITCH, exitPercent := 1
    , newStopLoss := none, exitPrice := some currentPrice }
  else if (if trade.direction = .LONG then currentPrice ≤ trade.stopLoss
           else trade.stopLoss ≤ currentPrice) then
    { shouldExit := true, reason := some .STOP_LOSS, exitPercent := 1
    , newStopLoss := none, exitPrice := some trade.stopLoss }
  else if trade.tp1Hit = false ∧ (if trade.direction = .LONG then trade.tp1Level ≤ currentPrice
                                  else currentPrice ≤ trade.tp1Level) then
    { shouldExit := true, reason := some .TP1, exitPercent := 1/2
    , newStopLoss := some (calculateBreakevenStop trade), exitPrice := some trade.tp1Level }
  else if trade.tp1Hit = true ∧ (if trade.direction = .LONG then trade.tp2Level ≤ currentPrice
                                 else currentPrice ≤ trade.tp2Level) then
    { shouldExit := true, reason := some .TP2, exitPercent := 1
    , newStopLoss := none, exitPrice := some trade.tp2Level }
  else if shouldTimeExit currentTime then
    { shouldExit := true, reason := some .TIME_EXIT, exitPercent := 1
    , newStopLoss := none, exitPrice := some currentPrice }
  else if checkStructuralExit trade structureState15m then
    { shouldExit := true, reason := some .STRUCTURAL, exitPercent := 1
    , newStopLoss := none, exitPrice := some currentPrice }
  else NO_EXIT

-- ============================================================
-- Paper trader (src/execution/paperTrader.ts)
-- ============================================================

/-- Conservative slippage (0.05%) applied at fill time. -/
def SLIPPAGE : ℚ := 5/10000

/-- A simulated position wrapping a trade.  The source field
`partialPnlUsdt` is spelled `partPnlUsdt` here. -/
structure PaperPosition where
  trade : Trade
  entryFilled : Bool
  tp1Executed : Bool
  beStopMoved : Bool
  currentStopLoss : ℚ
  remainingSizePercent : ℚ
  partPnlUsdt : ℚ
  fvgTop : ℚ
  fvgBottom : ℚ
  fvgCE : ℚ
  openTimestamp : ℤ
  lastCheckPrice : ℚ
  deriving DecidableEq, Repr

/-- PnL of a (part of a) position: signed price difference relative to
entry, scaled by size and leverage; the percentage is leveraged too.
Returns (pnlUsdt, pnlPct). -/
def calcPnL (direction : TradeDirection) (entryPrice exitPrice sizeUsdt leverage : ℚ) :
    ℚ × ℚ :=
  let priceDiff := if direction = .LONG then exitPrice - entryPrice else entryPrice - exitPrice
  (priceDiff / entryPrice * sizeUsdt * leverage, priceDiff / entryPrice * leverage * 100)

/-- R:R achieved by a closed trade (0 when entry, exit or risk is zero,
matching the source's falsy checks). -/
def calcRR (t : Trade) : ℚ :=
  match t.exitPrice with
  | none => 0
  | some ex =>
    if t.entryPrice = 0 ∨ ex = 0 then 0
    else
      let risk := |t.entryPrice - t.stopLoss|
      if risk = 0 then 0
      else |ex - t.entryPrice| / risk

/-- Close a position into a trade record: remaining-size PnL plus the
already-realized partial PnL, percentage over original size, and the
achieved R:R. -/
def closePaperPosition (pos : PaperPosition) (exitPrice : ℚ) (status : TradeStatus)
    (partPnl : ℚ) : Trade :=
  let sizeRemaining := pos.trade.sizeUsdt * pos.remainingSizePercent
  let remainingPnl := (calcPnL pos.trade.direction pos.trade.entryPrice exitPrice
    sizeRemaining pos.trade.leverage).1
  let totalPnlUsdt := partPnl + remainingPnl
  let totalPnlPct := totalPnlUsdt / pos.trade.sizeUsdt * 100
  { pos.trade with
    exitPrice := some exitPrice
  , pnlUsdt := some totalPnlUsdt
  , pnlPct := some totalPnlPct
  , rrAchieved := some (calcRR { pos.trade with exitPrice := some exitPrice })
  , status := status }

/-- Paper-trader time-exit check: past 15:30 NY time (same cutoff and
same `toNYTime` conversion as the exit strategy's `shouldTimeExit`). -/
def checkTimeExit (t : NYTime) : Bool :=
  decide (15 < t.hour ∨ (t.hour = 15 ∧ 30 ≤ t.minute))

/-- Outcome of one position's turn of the `updatePaperPositions` loop. -/
structure StepResult where
  remaining : Option PaperPosition
  closedTrade : Option Trade
  partPnlRealized : ℚ
  deriving DecidableEq, Repr

/-- Body of the `updatePaperPositions` loop for one position: record the
check price; fill a pending entry when price retraces into the gap (with
adverse slippage) and skip exits that cycle; otherwise evaluate, in
order, the time exit, the stop loss (at the live stop), TP2 (only once
TP1 executed) and TP1 (50% close, stop moved to breakeven plus 0.05%). -/
def stepPaperPosition (pos0 : PaperPosition) (currentPrice : ℚ) (isTimeExit : Bool) :
    StepResult :=
  let pos := { pos0 with lastCheckPrice := currentPrice }
  if pos.entryFilled = false then
    if (if pos.trade.direction = .LONG then currentPrice ≤ pos.fvgTop
        else pos.fvgBottom ≤ currentPrice) then
      let fillPrice :=
        if pos.trade.direction = .LONG then pos.fvgCE * (1 + SLIPPAGE)
        else pos.fvgCE * (1 - SLIPPAGE)
      { remaining := some { pos with
          entryFilled := true
        , trade := { pos.trade with status := .OPEN, entryPrice := fillPrice } }
      , closedTrade := none, partPnlRealized := 0 }
    else { remaining := some pos, closedTrade := none, partPnlRealized := 0 }
  else if isTimeExit then
    { remaining := none
    , closedTrade := some (closePaperPosition pos currentPrice .TIME_EXIT pos.partPnlUsdt)
    , partPnlRealized := 0 }
  else if (if pos.trade.direction = .LONG then currentPrice ≤ pos.currentStopLoss
           else pos.currentStopLoss ≤ currentPrice) then
    { remaining := none
    , closedTrade := some (closePaperPosition pos pos.currentStopLoss .STOPPED pos.partPnlUsdt)
    , partPnlRealized := 0 }
  else if pos.tp1Executed = true ∧
      (if pos.trade.direction = .LONG then pos.trade.tp2Level ≤ currentPrice
       else currentPrice ≤ pos.trade.tp2Level) then
    { remaining := none
    , closedTrade := some (closePaperPosition pos pos.trade.tp2Level .TP2_HIT pos.partPnlUsdt)
    , partPnlRealized := 0 }
  else if pos.tp1Executed = false ∧
      (if pos.trade.direction = .LONG then pos.trade.tp1Level ≤ currentPrice
       else currentPrice ≤ pos.trade.tp1Level) then
    let tp1Pnl := (calcPnL pos.trade.direction pos.trade.entryPrice pos.trade.tp1Level
      (pos.trade.sizeUsdt * (1/2)) pos.trade.leverage).1
    let buffer := pos.trade.entryPrice * (5/10000)
    { remaining := some { pos with
        partPnlUsdt := pos.partPnlUsdt + tp1Pnl
      , tp1Executed := true
      , trade := { pos.trade with tp1Hit := true, status := .TP1_HIT }
      , remainingSizePercent := 1/2
      , currentStopLoss :=
          if pos.trade.direction = .LONG then pos.trade.entryPrice + buffer
          else pos.trade.entryPrice - buffer
      , beStopMoved := true }
    , closedTrade := none, partPnlRealized := tp1Pnl }
  else { remaining := some pos, closedTrade := none, partPnlRealized := 0 }

/-- Update all open paper positions (the source iterates the array from
its last index down to 0; closed trades accumulate in that order and the
surviving positions keep their relative order). -/
def updatePaperPositions (positions : List PaperPosition) (currentPrice : ℚ)
    (currentTime : NYTime) : List PaperPosition × List Trade × ℚ :=
  let isTimeExit := checkTimeExit currentTime
  positions.reverse.foldl (fun acc pos =>
    let r := stepPaperPosition pos currentPrice isTimeExit
    ( (match r.remaining with | some p => p :: acc.1 | none => acc.1)
    , (match r.closedTrade with | some t => acc.2.1 ++ [t] | none => acc.2.1)
    , acc.2.2 + r.partPnlRealized)) ([], [], 0)

/-- The exit kinds shared by the paper trader's direct evaluation and
`evaluateExit` (structural and kill-switch exits are `other`). -/
inductive ExitKind
  | noExit | stopLoss | tp1 | tp2 | timeExit | other
  deriving DecidableEq, Repr

/-- Shared exit kind chosen by the paper trader for a position. -/
def paperExitKind (pos : PaperPosition) (currentPrice : ℚ) (isTimeExit : Bool) : ExitKind :=
  let r := stepPaperPosition pos currentPrice isTimeExit
  match r.closedTrade with
  | some t =>
    match t.status with
    | .TIME_EXIT => .timeExit
    | .STOPPED => .stopLoss
    | .TP2_HIT => .tp2
    | _ => .other
  | none =>
    match r.remaining with
    | some p => if p.tp1Executed = true ∧ pos.tp1Executed = false then .tp1 else .noExit
    | none => .noExit

/-- Shared exit kind of an `ExitDecision`. -/
def evalExitKind (d : ExitDecision) : ExitKind :=
  match d.reason with
  | some .STOP_LOSS => .stopLoss
  | some .TP1 => .tp1
  | some .TP2 => .tp2
  | some .TIME_EXIT => .timeExit
  | some _ => .other
  | none => .noExit

/-- The trade that `positionManager.checkPositions` would hand to
`evaluateExit` for a filled position once the live stop (moved to
breakeven after TP1) and the TP1 flag are synchronized from the
position's own state. -/
def syncedTrade (pos : PaperPosition) : Trade :=
  { pos.trade with
    stopLoss := pos.currentStopLoss
  , tp1Hit := pos.tp1Executed
  , status := if pos.tp1Executed = true then .TP1_HIT else .OPEN }

/-- A trade with the MANUAL status, used against `evaluateExit`. -/
def exitCexTrade : Trade :=
  { timestamp := 0, direction := .LONG, entryPrice := 100, exitPrice := none
  , sizeUsdt := 1000, leverage := 3, stopLoss := 95, tp1Level := 110, tp2Level := 120
  , tp1Hit := false, pnlUsdt := none, pnlPct := none, rrAchieved := none
  , displacementScore := 7, status := .MANUAL, isPaper := true }

/-- An undefined 15M structure (no structural exit possible). -/
def undefinedStructure : StructureState :=
  { trend := .UNDEFINED, lastHH := none, lastHL := none, lastLH := none
  , lastLL := none, criticalSwing := none, lastEvent := .NONE }

/-- An open LONG trade for the TP1 witness (entry 100, stop 95, TP1 110,
TP2 120, size 1000, leverage 3). -/
def tp1WitTrade : Trade :=
  { timestamp := 0, direction := .LONG, entryPrice := 100, exitPrice := none
  , sizeUsdt := 1000, leverage := 3, stopLoss := 95, tp1Level := 110, tp2Level := 120
  , tp1Hit := false, pnlUsdt := none, pnlPct := none, rrAchieved := none
  , displacementScore := 7, status := .OPEN, isPaper := true }

/-- A filled position on `tp1WitTrade` before TP1. -/
def tp1WitPos : PaperPosition :=
  { trade := tp1WitTrade, entryFilled := true, tp1Executed := false, beStopMoved := false
  , currentStopLoss := 95, remainingSizePercent := 1, partPnlUsdt := 0
  , fvgTop := 101, fvgBottom := 99, fvgCE := 100, openTimestamp := 0, lastCheckPrice := 100 }

-- ============================================================
-- SMS debounce (src/index.ts: lastSMSEvent / debounceSMS)
-- ============================================================

/-- Debounce memory: per timeframe, the last passed-through event and the
swing count at that moment (the source's module-level `lastSMSEvent`
map, passed explicitly here). -/
def DebounceState : Type := Timeframe → Option (StructureEvent × ℕ)

/-- Empty debounce memory. -/
def emptyDebounce : DebounceState := fun _ => none

/-- One cycle of the SMS debounce: NONE passes through with the memory
untouched; a repeated event with an unchanged swing count is suppressed
(returns NONE, memory untouched); otherwise the event is recorded with
the current swing count and let through. -/
def debounceSMS (st : DebounceState) (tf : Timeframe) (event : StructureEvent)
    (swings : List Swing) : StructureEvent × DebounceState :=
  if event = .NONE then (.NONE, st)
  else
    let currentSwingCount := swings.length
    match st tf with
    | some prev =>
      if prev.1 = event ∧ prev.2 = currentSwingCount then (.NONE, st)
      else (event, fun tf' => if tf' = tf then some (event, currentSwingCount) else st tf')
    | none => (event, fun tf' => if tf' = tf then some (event, currentSwingCount) else st tf')

-- ============================================================
-- Theorems
-- ============================================================

/-- C1: whenever peak equity is positive and the drawdown
(peak - current) / peak is at least 15%, `isKillSwitchActive` reports the
kill switch active and `checkRiskAllowance` blocks every proposed signal,
for every balance, R:R, entry and stop, regardless of the other gates. -/
theorem kill_switch_blocks_all (rs : RiskState)
    (hpeak : 0 < rs.peakEquity)
    (hdd : RiskConfig.killSwitchDrawdown ≤ (rs.peakEquity - rs.currentEquity) / rs.peakEquity) :
    isKillSwitchActive rs = true ∧
    ∀ accountBalance proposedRR entryPrice stopLoss : ℚ,
      (checkRiskAllowance rs accountBalance proposedRR entryPrice stopLoss).allowed = false := by
  constructor
  · unfold isKillSwitchActive
    rw [if_neg (not_le.mpr hpeak), if_pos hdd]
  · intro ab rr ep sl
    unfold checkRiskAllowance
    rw [if_pos ⟨hpeak, hdd⟩]
    rfl

/-- Witness for `kill_switch_blocks_all` at peak 10000, current 8500. -/
theorem kill_switch_blocks_all_witness :
    isKillSwitchActive ⟨0, 0, 0, 0, 10000, 8500⟩ = true ∧
    (checkRiskAllowance ⟨0, 0, 0, 0, 10000, 8500⟩ 5000 3 100 95).allowed = false := by
  have h := kill_switch_blocks_all ⟨0, 0, 0, 0, 10000, 8500⟩ (by norm_num)
    (by norm_num [RiskConfig.killSwitchDrawdown])
  exact ⟨h.1, h.2 5000 3 100 95⟩

/-- C7: when every gate before dynamic sizing passes, `checkRiskAllowance`
allows the trade with risk percent 1% at 0 consecutive losses, 0.5% at 1,
and 0.25% at 2 or more; and with exactly one consecutive loss the position
size is min(balance * 0.005 / stopDistancePct * leverage, balance * leverage)
with stopDistancePct = |entry - stop| / entry and leverage 3. -/
theorem riskPercent_by_streak_and_position_size (rs : RiskState)
    (accountBalance proposedRR entryPrice stopLoss : ℚ)
    (hks : ¬(0 < rs.peakEquity ∧
      RiskConfig.killSwitchDrawdown ≤ (rs.peakEquity - rs.currentEquity) / rs.peakEquity))
    (hwk : ¬(0 < rs.peakEquity ∧
      rs.weeklyPnlUsdt / rs.peakEquity ≤ -RiskConfig.maxWeeklyDrawdown))
    (hdy : ¬(0 < rs.currentEquity ∧
      rs.dailyPnlUsdt / rs.currentEquity ≤ -RiskConfig.maxDailyLoss))
    (htr : rs.tradesToday < RiskConfig.maxTradesPerDay)
    (hrr : RiskConfig.minRR ≤ proposedRR) :
    (checkRiskAllowance rs accountBalance proposedRR entryPrice stopLoss).allowed = true ∧
    (checkRiskAllowance rs accountBalance proposedRR entryPrice stopLoss).riskPercent =
      (if rs.consecutiveLosses = 0 then 1/100
       else if rs.consecutiveLosses = 1 then 5/1000 else 25/10000 : ℚ) ∧
    (rs.consecutiveLosses = 1 → |entryPrice - stopLoss| / entryPrice ≠ 0 →
      (checkRiskAllowance rs accountBalance proposedRR entryPrice stopLoss).positionSizeUsdt =
        min (accountBalance * (5/1000) / (|entryPrice - stopLoss| / entryPrice) * 3)
          (accountBalance * 3)) := by
  unfold checkRiskAllowance
  rw [if_neg hks, if_neg hwk, if_neg hdy, if_neg (not_le.mpr htr), if_neg (not_lt.mpr hrr)]
  refine ⟨rfl, ?_, ?_⟩
  · simp only [RiskConfig.maxRiskPerTrade, RiskConfig.postLossRisk, RiskConfig.post2LossRisk]
  · intro h1 hsd
    rw [h1]
    simp only [RiskConfig.postLossRisk, RiskConfig.defaultLeverage]
    unfold calculatePositionSize
    rw [if_neg hsd]
    norm_num

/-- Witness for `riskPercent_by_streak_and_position_size` at one
consecutive loss, balance 10000, entry 100, stop 99 and R:R 3. -/
theorem riskPercent_by_streak_witness :
    (checkRiskAllowance ⟨1, 0, 0, 0, 10000, 10000⟩ 10000 3 100 99).allowed = true ∧
    (checkRiskAllowance ⟨1, 0, 0, 0, 10000, 10000⟩ 10000 3 100 99).riskPercent = 5/1000 ∧
    (checkRiskAllowance ⟨1, 0, 0, 0, 10000, 10000⟩ 10000 3 100 99).positionSizeUsdt =
      min (10000 * (5/1000 : ℚ) / (|(100 : ℚ) - 99| / 100) * 3) (10000 * 3) := by
  have h := riskPercent_by_streak_and_position_size ⟨1, 0, 0, 0, 10000, 10000⟩ 10000 3 100 99
    (by norm_num [RiskConfig.killSwitchDrawdown])
    (by norm_num [RiskConfig.maxWeeklyDrawdown])
    (by norm_num [RiskConfig.maxDailyLoss])
    (by norm_num [RiskConfig.maxTradesPerDay])
    (by norm_num [RiskConfig.minRR])
  refine ⟨h.1, ?_, h.2.2 rfl (by norm_num)⟩
  rw [h.2.1]
  norm_num

/-- C9: every gap produced by `detectFVGs` or `detectFVGsInRange` has
top above bottom with CE exactly at the midpoint, and `updateFVGStates`
rewrites only the `state` field of each gap, so every gap-producing and
gap-updating operation preserves the invariant. -/
theorem fvg_top_bottom_ce_invariant :
    (∀ (candles : List Candle) (tf : Timeframe),
       (detectFVGs candles tf).Forall
         (fun g => g.bottom < g.top ∧ g.ce = (g.top + g.bottom) / 2)) ∧
    (∀ (candles : List Candle) (fromIndex toIndex : ℕ) (tf : Timeframe),
       (detectFVGsInRange candles fromIndex toIndex tf).Forall
         (fun g => g.bottom < g.top ∧ g.ce = (g.top + g.bottom) / 2)) ∧
    (∀ (gs : List FairValueGap) (cs : List Candle),
       List.Forall₂ (fun g g' => g' = { g with state := g'.state }) gs
         (updateFVGStates gs cs)) := by
  refine ⟨?_, ?_, ?_⟩
  · intro cs tf
    rw [List.forall_iff_forall_mem]
    intro g hg
    unfold detectFVGs at hg
    split at hg
    · simp at hg
    · rw [List.mem_flatMap] at hg
      obtain ⟨i, -, hg⟩ := hg
      rw [List.mem_append] at hg
      rcases hg with hg | hg <;> split at hg <;>
        simp only [List.mem_singleton, List.not_mem_nil] at hg <;> subst hg <;>
        exact ⟨by assumption, rfl⟩
  · intro cs fromIndex toIndex tf
    rw [List.forall_iff_forall_mem]
    intro g hg
    unfold detectFVGsInRange at hg
    rw [List.mem_flatMap] at hg
    obtain ⟨i, -, hg⟩ := hg
    rw [List.mem_append] at hg
    rcases hg with hg | hg <;> split at hg <;>
      simp only [List.mem_singleton, List.not_mem_nil] at hg <;> subst hg <;>
      exact ⟨by assumption, rfl⟩
  · intro gs cs
    unfold updateFVGStates
    split
    · exact List.forall₂_same.mpr fun g _ => rfl
    · rw [List.forall₂_map_right_iff]
      refine List.forall₂_same.mpr fun g _ => ?_
      unfold updateFVGState
      split
      · rfl
      · dsimp only
        split
        · rfl
        · rfl

/-- C5 counterexample: a bullish gap in state CE_TOUCHED hit by a candle
whose close passes fully through the far boundary (close 95 < bottom 100)
transitions to VIOLATED, not to FILLED — `updateFVGStates` has no
CE_TOUCHED-to-FILLED transition. -/
theorem updateFVGStates_far_boundary_close_cex :
    updateFVGStates [fvgCexGap] [fvgCexCandle] = [{ fvgCexGap with state := .VIOLATED }] ∧
    FVGState.VIOLATED ≠ FVGState.FILLED := by
  constructor
  · show (if _ then _ else _) = _
    rw [if_neg (by decide)]
    simp only [List.map_cons, List.map_nil]
    unfold updateFVGState
    rw [if_neg (by decide)]
    have hstep : fvgCandleStep fvgCexGap fvgCexGap.state fvgCexCandle = .VIOLATED := by
      unfold fvgCandleStep fvgCexGap fvgCexCandle
      norm_num
    simp only [List.foldl_cons, List.foldl_nil, hstep]
    rw [if_pos (by decide)]
  · decide

/-- C5 (amended): `updateFVGStates` leaves FILLED and VIOLATED gaps
unchanged (terminal states); the per-candle step never produces FILLED
from a non-FILLED state (a close through the far boundary yields VIOLATED
for every non-terminal state instead); and for each non-terminal state the
step follows the wick/CE transition table: OPEN to PARTIALLY_FILLED when
the wick enters the gap, PARTIALLY_FILLED to CE_TOUCHED when the wick
reaches CE, any of them to VIOLATED on a close through the far boundary. -/
theorem updateFVGStates_transitions :
    (∀ (gs : List FairValueGap) (cs : List Candle),
       (∀ g ∈ gs, g.state = .FILLED ∨ g.state = .VIOLATED) →
         updateFVGStates gs cs = gs) ∧
    (∀ (g : FairValueGap) (s : FVGState) (c : Candle),
       s ≠ .FILLED → fvgCandleStep g s c ≠ .FILLED) ∧
    (∀ (g : FairValueGap) (cs : List Candle),
       g.state ≠ .FILLED → (updateFVGState g cs).state ≠ .FILLED) ∧
    (∀ (g : FairValueGap) (c : Candle), g.type = .BULLISH →
       (fvgCandleStep g .OPEN c =
         (if c.close < g.bottom then .VIOLATED
          else if c.low < g.top then .PARTIALLY_FILLED else .OPEN)) ∧
       (fvgCandleStep g .PARTIALLY_FILLED c =
         (if c.close < g.bottom then .VIOLATED
          else if c.low ≤ g.ce then .CE_TOUCHED else .PARTIALLY_FILLED)) ∧
       (fvgCandleStep g .CE_TOUCHED c =
         (if c.close < g.bottom then .VIOLATED else .CE_TOUCHED))) ∧
    (∀ (g : FairValueGap) (c : Candle), g.type = .BEARISH →
       (fvgCandleStep g .OPEN c =
         (if g.top < c.close then .VIOLATED
          else if g.bottom < c.high then .PARTIALLY_FILLED else .OPEN)) ∧
       (fvgCandleStep g .PARTIALLY_FILLED c =
         (if g.top < c.close then .VIOLATED
          else if g.ce ≤ c.high then .CE_TOUCHED else .PARTIALLY_FILLED)) ∧
       (fvgCandleStep g .CE_TOUCHED c =
         (if g.top < c.close then .VIOLATED else .CE_TOUCHED))) := by
  have hstep_ne : ∀ (g : FairValueGap) (s : FVGState) (c : Candle),
      s ≠ .FILLED → fvgCandleStep g s c ≠ .FILLED := by
    intro g s c hs
    unfold fvgCandleStep
    split
    · exact hs
    · split <;> split <;> try simp
      all_goals split <;> try simp
      all_goals split <;> simp [hs]
  refine ⟨?_, hstep_ne, ?_, ?_, ?_⟩
  · intro gs cs hterm
    unfold updateFVGStates
    split
    · rfl
    · have hid : ∀ g ∈ gs, updateFVGState g cs = id g := by
        intro g hg
        unfold updateFVGState
        rw [if_pos (hterm g hg)]
        rfl
      rw [List.map_congr_left hid, List.map_id]
  · intro g cs hg
    unfold updateFVGState
    split
    · exact hg
    · dsimp only
      rename_i hnt
      rw [not_or] at hnt
      have hfold : ∀ (l : List Candle) (s : FVGState), s ≠ .FILLED →
          l.foldl (fvgCandleStep g) s ≠ .FILLED := by
        intro l
        induction l with
        | nil => intro s hs; simpa using hs
        | cons c t ih =>
          intro s hs
          simpa using ih (fvgCandleStep g s c) (hstep_ne g s c hs)
      split
      · exact hfold cs g.state hnt.1
      · exact hg
  · intro g c hty
    refine ⟨?_, ?_, ?_⟩ <;>
      · unfold fvgCandleStep
        rw [if_neg (by simp), if_pos hty]
        split
        · rfl
        · simp
  · intro g c hty
    have hty' : g.type ≠ .BULLISH := by rw [hty]; decide
    refine ⟨?_, ?_, ?_⟩ <;>
      · unfold fvgCandleStep
        rw [if_neg (by simp), if_neg hty']
        split
        · rfl
        · simp

/-- Witness for `updateFVGStates_transitions`: terminality on a FILLED
gap, no FILLED production from OPEN, and both transition tables at the
concrete witness gaps and candle. -/
theorem updateFVGStates_transitions_witness :
    updateFVGStates [fvgWitGapFilled] [fvgWitCandle] = [fvgWitGapFilled] ∧
    fvgCandleStep fvgWitGapBull .OPEN fvgWitCandle ≠ .FILLED ∧
    (updateFVGState fvgWitGapBull [fvgWitCandle]).state ≠ .FILLED ∧
    fvgCandleStep fvgWitGapBull .OPEN fvgWitCandle =
      (if fvgWitCandle.close < fvgWitGapBull.bottom then .VIOLATED
       else if fvgWitCandle.low < fvgWitGapBull.top then .PARTIALLY_FILLED else .OPEN) ∧
    fvgCandleStep fvgWitGapBear .OPEN fvgWitCandle =
      (if fvgWitGapBear.top < fvgWitCandle.close then .VIOLATED
       else if fvgWitGapBear.bottom < fvgWitCandle.high then .PARTIALLY_FILLED
       else .OPEN) := by
  refine ⟨?_, ?_, ?_, ?_, ?_⟩
  · exact updateFVGStates_transitions.1 [fvgWitGapFilled] [fvgWitCandle]
      (by intro g hg; rw [List.mem_singleton] at hg; subst hg; left; rfl)
  · exact updateFVGStates_transitions.2.1 fvgWitGapBull .OPEN fvgWitCandle (by decide)
  · exact updateFVGStates_transitions.2.2.1 fvgWitGapBull [fvgWitCandle] (by decide)
  · exact (updateFVGStates_transitions.2.2.2.1 fvgWitGapBull fvgWitCandle rfl).1
  · exact (updateFVGStates_transitions.2.2.2.2 fvgWitGapBear fvgWitCandle rfl).1

/-- C2: whenever `detectBMS` reports a CHOCH on the latest candle,
`detectSMS` returns the corresponding SMS event exactly when the
displacement score over the last ~10 candles reaches the configured
minimum (default 6), and otherwise returns the CHOCH event itself —
never NONE and never an SMS. -/
theorem detectSMS_upgrades_choch_iff_displacement
    (tf : Timeframe) (candles : List Candle) (swings : List Swing) (c : Candle)
    (h5 : 5 ≤ candles.length)
    (hlast : candles.getLast? = some c)
    (hch : detectBMS c (analyzeStructure candles swings) = .CHOCH_BULLISH ∨
           detectBMS c (analyzeStructure candles swings) = .CHOCH_BEARISH) :
    detectSMS tf candles swings =
      (if ScoringConfig.minScoreForSMS ≤
          (scoreDisplacement candles (candles.length - 11) (candles.length - 1)).score
       then (if detectBMS c (analyzeStructure candles swings) = .CHOCH_BULLISH
             then .SMS_BULLISH else .SMS_BEARISH)
       else detectBMS c (analyzeStructure candles swings)) := by
  have htrend : ¬((analyzeStructure candles swings).trend = .UNDEFINED ∨
      (analyzeStructure candles swings).trend = .TRANSITION) := by
    intro h
    have hNONE : detectBMS c (analyzeStructure candles swings) = .NONE := by
      unfold detectBMS
      rw [if_pos h]
    rcases hch with h1 | h1 <;> rw [h1] at hNONE <;> exact absurd hNONE (by decide)
  unfold detectSMS
  rw [if_neg (not_lt.mpr h5)]
  dsimp only
  rw [if_neg htrend, hlast]
  dsimp only
  rcases hch with h1 | h1 <;> rw [h1] <;>
    simp only [ne_eq, not_true_eq_false, false_and, not_false_eq_true, and_true, and_false,
      if_false, reduceCtorEq, if_true]

/-- Witness for `detectSMS_upgrades_choch_iff_displacement` on a bullish
structure whose last candle closes below the critical swing. -/
theorem detectSMS_upgrades_choch_witness :
    detectSMS .m5 smsWitCandles smsWitSwings =
      (if ScoringConfig.minScoreForSMS ≤
          (scoreDisplacement smsWitCandles (smsWitCandles.length - 11)
            (smsWitCandles.length - 1)).score
       then .SMS_BEARISH else .CHOCH_BEARISH) := by
  have hch : detectBMS smsWitLast (analyzeStructure smsWitCandles smsWitSwings) =
      .CHOCH_BEARISH := by decide
  have h := detectSMS_upgrades_choch_iff_displacement .m5 smsWitCandles smsWitSwings
    smsWitLast (by decide) (by decide) (Or.inr hch)
  rw [hch] at h
  simpa using h

/-- Helper: every sweep score is capped at 10 by construction. -/
theorem computeSweepScore_le_ten (level : LiquidityLevel) (extreme : ℚ) (delay : ℕ)
    (reversalBodyRatio : ℚ) : computeSweepScore level extreme delay reversalBodyRatio ≤ 10 :=
  min_le_left _ _

/-- Helper: a sweep returned by the delayed confirmation scan carries the
extreme handed to the scan and a score in 1..10. -/
theorem scanDelayed_some (level : LiquidityLevel) (isHighLevel : Bool) (extreme : ℚ) :
    ∀ (d : ℕ) (cs : List Candle) (s : Sweep),
      scanDelayed level isHighLevel extreme d cs = some s →
        s.extreme = extreme ∧ 1 ≤ s.score ∧ s.score ≤ 10 := by
  cases isHighLevel <;>
  · intro d cs
    induction cs generalizing d with
    | nil => intro s h; simp [scanDelayed] at h
    | cons c rest ih =>
      intro s h
      simp only [scanDelayed, Bool.false_eq_true, if_false, eq_self_iff_true, if_true] at h
      split at h
      · split at h <;> split at h
        · simp at h
        · rename_i hscore
          rw [Option.some.injEq] at h
          subst h
          exact ⟨rfl, Nat.one_le_iff_ne_zero.mpr hscore, computeSweepScore_le_ten _ _ _ _⟩
        · simp at h
        · rename_i hscore
          rw [Option.some.injEq] at h
          subst h
          exact ⟨rfl, Nat.one_le_iff_ne_zero.mpr hscore, computeSweepScore_le_ten _ _ _ _⟩
      · exact ih (d + 1) s h

/-- Helper: every sweep returned by the outer scan of `detectSweep` has
wick penetration at most 1% and a score in 1..10. -/
theorem detectSweepLoop_some (level : LiquidityLevel) (isHighLevel : Bool) :
    ∀ (cs : List Candle) (s : Sweep), detectSweepLoop level isHighLevel cs = some s →
      |s.extreme - level.level| / level.level ≤ 1/100 ∧ 1 ≤ s.score ∧ s.score ≤ 10 := by
  cases isHighLevel <;>
  · intro cs
    induction cs with
    | nil => intro s h; simp [detectSweepLoop] at h
    | cons c rest ih =>
      intro s h
      simp only [detectSweepLoop, Bool.false_eq_true, if_false, eq_self_iff_true, if_true] at h
      split at h
      · exact ih s h
      · split at h
        · exact ih s h
        · rename_i hexc hpen
          split at h
          · split at h <;> split at h
            · exact ih s h
            · rename_i hscore
              rw [Option.some.injEq] at h
              subst h
              exact ⟨not_lt.mp hpen, Nat.one_le_iff_ne_zero.mpr hscore,
                computeSweepScore_le_ten _ _ _ _⟩
            · exact ih s h
            · rename_i hscore
              rw [Option.some.injEq] at h
              subst h
              exact ⟨not_lt.mp hpen, Nat.one_le_iff_ne_zero.mpr hscore,
                computeSweepScore_le_ten _ _ _ _⟩
          · split at h
            · rename_i s' hscan
              rw [Option.some.injEq] at h
              subst h
              have h2 := scanDelayed_some level _ _ 1 _ s' hscan
              refine ⟨?_, h2.2.1, h2.2.2⟩
              rw [h2.1]
              exact not_lt.mp hpen
            · exact ih s h

/-- C6: every sweep returned by `detectSweep` penetrates its level by at
most 1% of the level and carries a score between 1 and 10 — a wick
penetrating more than 1% never produces a sweep for that candle, the
score is capped at 10, and a candidate scoring 0 is never returned. -/
theorem detectSweep_penetration_and_score_bounds
    (level : LiquidityLevel) (candles : List Candle) (s : Sweep)
    (h : detectSweep level candles = some s) :
    |s.extreme - level.level| / level.level ≤ 1/100 ∧ 1 ≤ s.score ∧ s.score ≤ 10 := by
  unfold detectSweep at h
  split at h
  · simp at h
  · exact detectSweepLoop_some level (isHighType level.type) candles s h

/-- Witness for `detectSweep_penetration_and_score_bounds` on a clean
0.05% sweep of a score-8 BSL level. -/
theorem detectSweep_bounds_witness :
    |sweepWitSweep.extreme - sweepWitLevel.level| / sweepWitLevel.level ≤ 1/100 ∧
    1 ≤ sweepWitSweep.score ∧ sweepWitSweep.score ≤ 10 :=
  detectSweep_penetration_and_score_bounds sweepWitLevel [sweepWitCandle] sweepWitSweep
    (by
      have ha : |(1/20 : ℚ)| = 1/20 := abs_of_pos (by norm_num)
      have hb : |(2/25 : ℚ)| = 2/25 := abs_of_pos (by norm_num)
      norm_num [detectSweep, detectSweepLoop, computeSweepScore, isHighType,
        sweepWitLevel, sweepWitCandle, sweepWitSweep, ha, hb])

/-- C8 counterexample: a trade whose status is MANUAL (terminal per the
claim) is not skipped by `evaluateExit` — with the kill switch active it
returns a full-close decision, not the no-exit decision. -/
theorem evaluateExit_manual_not_skipped_cex :
    (evaluateExit exitCexTrade 100 ⟨12, 0⟩ undefinedStructure true).shouldExit = true ∧
    evaluateExit exitCexTrade 100 ⟨12, 0⟩ undefinedStructure true ≠ NO_EXIT := by
  constructor
  · rfl
  · intro h
    have : (evaluateExit exitCexTrade 100 ⟨12, 0⟩ undefinedStructure true).shouldExit =
        NO_EXIT.shouldExit := by rw [h]
    exact absurd this (by decide)

/-- C8 (amended): `evaluateExit` returns the no-exit decision for every
input whenever the trade's status is STOPPED, TP2_HIT or TIME_EXIT (the
statuses its skip guard lists); a MANUAL trade, although terminal for the
paper trader, is still evaluated. -/
theorem evaluateExit_skips_closed_statuses (trade : Trade) (currentPrice : ℚ)
    (currentTime : NYTime) (structureState15m : StructureState) (isKillSwitch : Bool)
    (h : trade.status = .STOPPED ∨ trade.status = .TP2_HIT ∨ trade.status = .TIME_EXIT) :
    evaluateExit trade currentPrice currentTime structureState15m isKillSwitch = NO_EXIT := by
  unfold evaluateExit
  rw [if_pos h]

/-- Witness for `evaluateExit_skips_closed_statuses` on a TP2_HIT trade
with the kill switch active. -/
theorem evaluateExit_skips_closed_statuses_witness :
    evaluateExit { exitCexTrade with status := .TP2_HIT } 100 ⟨16, 0⟩
      undefinedStructure true = NO_EXIT :=
  evaluateExit_skips_closed_statuses { exitCexTrade with status := .TP2_HIT } 100 ⟨16, 0⟩
    undefinedStructure true (Or.inr (Or.inl rfl))

/-- Helper: the trade produced by `closePaperPosition` carries the status
it is closed with. -/
theorem closePaperPosition_status (pos : PaperPosition) (exitPrice : ℚ)
    (status : TradeStatus) (partPnl : ℚ) :
    (closePaperPosition pos exitPrice status partPnl).status = status := rfl

/-- C3: in the `updatePaperPositions` loop, a TP2 close (status TP2_HIT)
can only happen on a position whose TP1 already executed; and when TP1
fires (filled position, no time exit, no stop hit, TP1 not yet executed,
price at the TP1 level), the position stays open with remaining size
fraction 0.5, the realized partial PnL is the PnL on sizeUsdt times 0.5,
the TP1 flags and status are set, and the live stop moves to entry plus
0.05% for a LONG / entry minus 0.05% for a SHORT. -/
theorem tp1_half_close_and_tp2_after_tp1
    (pos : PaperPosition) (currentPrice : ℚ) (isTimeExit : Bool) :
    (∀ tr, (stepPaperPosition pos currentPrice isTimeExit).closedTrade = some tr →
        tr.status = .TP2_HIT → pos.tp1Executed = true) ∧
    (pos.entryFilled = true → isTimeExit = false →
      ¬(if pos.trade.direction = .LONG then currentPrice ≤ pos.currentStopLoss
        else pos.currentStopLoss ≤ currentPrice) →
      pos.tp1Executed = false →
      (if pos.trade.direction = .LONG then pos.trade.tp1Level ≤ currentPrice
       else currentPrice ≤ pos.trade.tp1Level) →
      (stepPaperPosition pos currentPrice isTimeExit).closedTrade = none ∧
      (stepPaperPosition pos currentPrice isTimeExit).partPnlRealized =
        (calcPnL pos.trade.direction pos.trade.entryPrice pos.trade.tp1Level
          (pos.trade.sizeUsdt * (1/2)) pos.trade.leverage).1 ∧
      ∃ p, (stepPaperPosition pos currentPrice isTimeExit).remaining = some p ∧
        p.remainingSizePercent = 1/2 ∧
        p.tp1Executed = true ∧
        p.trade.tp1Hit = true ∧
        p.trade.status = .TP1_HIT ∧
        p.currentStopLoss =
          (if pos.trade.direction = .LONG
           then pos.trade.entryPrice + pos.trade.entryPrice * (5/10000)
           else pos.trade.entryPrice - pos.trade.entryPrice * (5/10000))) := by
  constructor
  · intro tr htr hstat
    unfold stepPaperPosition at htr
    dsimp only at htr
    by_cases hf : pos.entryFilled = false
    · rw [if_pos hf] at htr
      rw [apply_ite StepResult.closedTrade] at htr
      simp at htr
    · rw [if_neg hf] at htr
      by_cases ht : isTimeExit = true
      · rw [if_pos ht] at htr
        dsimp only at htr
        rw [Option.some.injEq] at htr
        rw [← htr, closePaperPosition_status] at hstat
        exact absurd hstat (by decide)
      · rw [if_neg ht] at htr
        by_cases hsl : (if pos.trade.direction = .LONG then currentPrice ≤ pos.currentStopLoss
            else pos.currentStopLoss ≤ currentPrice)
        · rw [if_pos hsl] at htr
          dsimp only at htr
          rw [Option.some.injEq] at htr
          rw [← htr, closePaperPosition_status] at hstat
          exact absurd hstat (by decide)
        · rw [if_neg hsl] at htr
          by_cases htp2 : (pos.tp1Executed = true ∧
              (if pos.trade.direction = .LONG then pos.trade.tp2Level ≤ currentPrice
               else currentPrice ≤ pos.trade.tp2Level))
          · exact htp2.1
          · rw [if_neg htp2] at htr
            rw [apply_ite StepResult.closedTrade] at htr
            simp at htr
  · intro hf ht hsl htp1x htp1
    unfold stepPaperPosition
    dsimp only
    rw [if_neg (by simp [hf]), if_neg (by simp [ht]), if_neg hsl,
      if_neg (by simp [htp1x]), if_pos ⟨htp1x, htp1⟩]
    exact ⟨rfl, rfl, _, rfl, rfl, rfl, rfl, rfl, rfl⟩

/-- Witness for `tp1_half_close_and_tp2_after_tp1`: TP1 fires at price
111 on the witness position. -/
theorem tp1_half_close_witness :
    (stepPaperPosition tp1WitPos 111 false).closedTrade = none ∧
    (stepPaperPosition tp1WitPos 111 false).partPnlRealized =
      (calcPnL tp1WitPos.trade.direction tp1WitPos.trade.entryPrice tp1WitPos.trade.tp1Level
        (tp1WitPos.trade.sizeUsdt * (1/2)) tp1WitPos.trade.leverage).1 ∧
    ∃ p, (stepPaperPosition tp1WitPos 111 false).remaining = some p ∧
      p.remainingSizePercent = 1/2 ∧
      p.tp1Executed = true ∧
      p.trade.tp1Hit = true ∧
      p.trade.status = .TP1_HIT ∧
      p.currentStopLoss =
        (if tp1WitPos.trade.direction = .LONG
         then tp1WitPos.trade.entryPrice + tp1WitPos.trade.entryPrice * (5/10000)
         else tp1WitPos.trade.entryPrice - tp1WitPos.trade.entryPrice * (5/10000)) :=
  (tp1_half_close_and_tp2_after_tp1 tp1WitPos 111 false).2 rfl rfl
    (by norm_num [tp1WitPos, tp1WitTrade]) rfl
    (by norm_num [tp1WitPos, tp1WitTrade])

/-- Helper: on a filled position the paper trader's exit kind follows the
source's checking order — time exit first, then stop loss, then TP2 (only
once TP1 executed), then TP1. -/
theorem paperExitKind_eq (pos : PaperPosition) (currentPrice : ℚ) (isTimeExit : Bool)
    (hf : pos.entryFilled = true) :
    paperExitKind pos currentPrice isTimeExit =
      (if isTimeExit = true then .timeExit
       else if (if pos.trade.direction = .LONG then currentPrice ≤ pos.currentStopLoss
                else pos.currentStopLoss ≤ currentPrice) then .stopLoss
       else if pos.tp1Executed = true ∧
           (if pos.trade.direction = .LONG then pos.trade.tp2Level ≤ currentPrice
            else currentPrice ≤ pos.trade.tp2Level) then .tp2
       else if pos.tp1Executed = false ∧
           (if pos.trade.direction = .LONG then pos.trade.tp1Level ≤ currentPrice
            else currentPrice ≤ pos.trade.tp1Level) then .tp1
       else .noExit) := by
  unfold paperExitKind stepPaperPosition
  dsimp only
  rw [if_neg (by simp [hf])]
  by_cases ht : isTimeExit = true
  · rw [if_pos ht, if_pos ht]
    dsimp only
    simp [closePaperPosition_status]
  · rw [if_neg ht, if_neg ht]
    by_cases hsl : (if pos.trade.direction = .LONG then currentPrice ≤ pos.currentStopLoss
        else pos.currentStopLoss ≤ currentPrice)
    · rw [if_pos hsl, if_pos hsl]
      dsimp only
      simp [closePaperPosition_status]
    · rw [if_neg hsl, if_neg hsl]
      by_cases htp2 : (pos.tp1Executed = true ∧
          (if pos.trade.direction = .LONG then pos.trade.tp2Level ≤ currentPrice
           else currentPrice ≤ pos.trade.tp2Level))
      · rw [if_pos htp2, if_pos htp2]
        dsimp only
        simp [closePaperPosition_status]
      · rw [if_neg htp2, if_neg htp2]
        by_cases htp1 : (pos.tp1Executed = false ∧
            (if pos.trade.direction = .LONG then pos.trade.tp1Level ≤ currentPrice
             else currentPrice ≤ pos.trade.tp1Level))
        · rw [if_pos htp1, if_pos htp1]
          dsimp only
          rw [if_pos ⟨rfl, htp1.1⟩]
        · rw [if_neg htp1, if_neg htp1]
          dsimp only
          rw [if_neg fun hc => by
            have := hc.1
            rw [hc.2] at this
            exact Bool.noConfusion this]

/-- Helper: for a trade outside the skip statuses, with the kill switch
off and no structural exit, `evaluateExit` chooses, in order, the stop
loss, TP1 (only before TP1), TP2 (only after TP1), then the time exit. -/
theorem evalExitKind_evaluateExit (trade : Trade) (currentPrice : ℚ)
    (currentTime : NYTime) (st15 : StructureState)
    (hstatus : ¬(trade.status = .STOPPED ∨ trade.status = .TP2_HIT ∨
      trade.status = .TIME_EXIT))
    (hstruct : checkStructuralExit trade st15 = false) :
    evalExitKind (evaluateExit trade currentPrice currentTime st15 false) =
      (if (if trade.direction = .LONG then currentPrice ≤ trade.stopLoss
           else trade.stopLoss ≤ currentPrice) then .stopLoss
       else if trade.tp1Hit = false ∧
           (if trade.direction = .LONG then trade.tp1Level ≤ currentPrice
            else currentPrice ≤ trade.tp1Level) then .tp1
       else if trade.tp1Hit = true ∧
           (if trade.direction = .LONG then trade.tp2Level ≤ currentPrice
            else currentPrice ≤ trade.tp2Level) then .tp2
       else if shouldTimeExit currentTime = true then .timeExit
       else .noExit) := by
  unfold evaluateExit
  rw [if_neg hstatus, if_neg (by simp)]
  by_cases hsl : (if trade.direction = .LONG then currentPrice ≤ trade.stopLoss
      else trade.stopLoss ≤ currentPrice)
  · rw [if_pos hsl, if_pos hsl]
    rfl
  · rw [if_neg hsl, if_neg hsl]
    by_cases htp1 : (trade.tp1Hit = false ∧
        (if trade.direction = .LONG then trade.tp1Level ≤ currentPrice
         else currentPrice ≤ trade.tp1Level))
    · rw [if_pos htp1, if_pos htp1]
      rfl
    · rw [if_neg htp1, if_neg htp1]
      by_cases htp2 : (trade.tp1Hit = true ∧
          (if trade.direction = .LONG then trade.tp2Level ≤ currentPrice
           else currentPrice ≤ trade.tp2Level))
      · rw [if_pos htp2, if_pos htp2]
        rfl
      · rw [if_neg htp2, if_neg htp2]
        by_cases htime : shouldTimeExit currentTime = true
        · rw [if_pos htime, if_pos htime]
          rfl
        · rw [if_neg htime, if_neg htime, if_neg (by rw [hstruct]; exact Bool.noConfusion)]
          rfl

/-- C4 counterexample: past the 15:30 NY cutoff with price through the
stop (94 ≤ stop 95 on a filled LONG), the paper trader's direct
evaluation closes the trade as a TIME exit while `evaluateExit`'s
priority order picks the STOP_LOSS exit — the two evaluations disagree
on the shared exit kinds. -/
theorem paper_vs_evaluateExit_time_order_cex :
    checkTimeExit ⟨16, 0⟩ = true ∧
    paperExitKind tp1WitPos 94 (checkTimeExit ⟨16, 0⟩) = .timeExit ∧
    evalExitKind (evaluateExit (syncedTrade tp1WitPos) 94 ⟨16, 0⟩ undefinedStructure false) =
      .stopLoss ∧
    ExitKind.timeExit ≠ ExitKind.stopLoss := by
  refine ⟨rfl, ?_, ?_, by decide⟩
  · rw [paperExitKind_eq tp1WitPos 94 _ rfl]
    rfl
  · rw [evalExitKind_evaluateExit _ _ _ _ (by decide) (by decide)]
    rw [if_pos (by norm_num [syncedTrade, tp1WitPos, tp1WitTrade])]

/-- C4 (amended): for a filled position whose trade view is synchronized
(live stop and TP1 flag), with the kill switch off and no structural
exit, the paper trader's direct evaluation and `evaluateExit` choose the
same shared exit kind whenever the 15:30 NY cutoff has not been reached;
once the cutoff is reached the paper trader always picks the time exit
first, while `evaluateExit` checks it only after stop-loss/TP1/TP2 (the
counterexample shows they then disagree). -/
theorem paper_step_matches_evaluateExit_before_cutoff
    (pos : PaperPosition) (currentPrice : ℚ) (currentTime : NYTime)
    (st15 : StructureState)
    (hf : pos.entryFilled = true)
    (hstruct : checkStructuralExit (syncedTrade pos) st15 = false) :
    (checkTimeExit currentTime = false →
      paperExitKind pos currentPrice (checkTimeExit currentTime) =
        evalExitKind (evaluateExit (syncedTrade pos) currentPrice currentTime st15 false)) ∧
    (checkTimeExit currentTime = true →
      paperExitKind pos currentPrice (checkTimeExit currentTime) = .timeExit) := by
  constructor
  · intro h
    have hstatus : ¬((syncedTrade pos).status = .STOPPED ∨
        (syncedTrade pos).status = .TP2_HIT ∨ (syncedTrade pos).status = .TIME_EXIT) := by
      unfold syncedTrade
      dsimp only
      by_cases hx : pos.tp1Executed = true <;> simp [hx]
    rw [paperExitKind_eq pos currentPrice _ hf,
      evalExitKind_evaluateExit _ _ _ _ hstatus hstruct]
    have hshould : shouldTimeExit currentTime = checkTimeExit currentTime := rfl
    rw [h, hshould, h]
    show (if (false : Bool) = true then ExitKind.timeExit else _) = _
    simp only [Bool.false_eq_true, if_false, syncedTrade]
    by_cases hsl : (if pos.trade.direction = .LONG then currentPrice ≤ pos.currentStopLoss
        else pos.currentStopLoss ≤ currentPrice)
    · rw [if_pos hsl, if_pos hsl]
    · rw [if_neg hsl, if_neg hsl]
      by_cases hx : pos.tp1Executed = true
      · simp [hx]
      · have hx' : pos.tp1Executed = false := by rwa [Bool.not_eq_true] at hx
        simp [hx']
  · intro h
    rw [paperExitKind_eq pos currentPrice _ hf, h]
    rfl

/-- Witness for `paper_step_matches_evaluateExit_before_cutoff` at noon
NY time on the TP1 witness position: both evaluations agree, and at
16:00 the paper trader picks the time exit. -/
theorem paper_step_matches_evaluateExit_witness :
    (paperExitKind tp1WitPos 111 (checkTimeExit ⟨12, 0⟩) =
      evalExitKind (evaluateExit (syncedTrade tp1WitPos) 111 ⟨12, 0⟩
        undefinedStructure false)) ∧
    paperExitKind tp1WitPos 111 (checkTimeExit ⟨16, 0⟩) = .timeExit := by
  have h12 := paper_step_matches_evaluateExit_before_cutoff tp1WitPos 111 ⟨12, 0⟩
    undefinedStructure rfl (by decide)
  have h16 := paper_step_matches_evaluateExit_before_cutoff tp1WitPos 111 ⟨16, 0⟩
    undefinedStructure rfl (by decide)
  exact ⟨h12.1 rfl, h16.2 rfl⟩

/-- C10: when `debounceSMS` passes a non-NONE event through, it records
(event, swing count) for that timeframe; a later call with the same
event and an unchanged swing count returns NONE (suppressed), while a
call whose event differs or whose swing count changed returns its event
again and updates the memory. -/
theorem debounceSMS_suppression_cycle
    (st : DebounceState) (tf : Timeframe) (event : StructureEvent) (swings : List Swing)
    (hne : event ≠ .NONE)
    (hpass : (debounceSMS st tf event swings).1 = event) :
    ((debounceSMS st tf event swings).2 tf = some (event, swings.length)) ∧
    (∀ swings2 : List Swing, swings2.length = swings.length →
      (debounceSMS (debounceSMS st tf event swings).2 tf event swings2).1 = .NONE) ∧
    (∀ (event2 : StructureEvent) (swings2 : List Swing), event2 ≠ .NONE →
      (event2 ≠ event ∨ swings2.length ≠ swings.length) →
      (debounceSMS (debounceSMS st tf event swings).2 tf event2 swings2).1 = event2 ∧
      (debounceSMS (debounceSMS st tf event swings).2 tf event2 swings2).2 tf =
        some (event2, swings2.length)) := by
  have hmem : (debounceSMS st tf event swings).2 tf = some (event, swings.length) := by
    unfold debounceSMS at hpass ⊢
    rw [if_neg hne] at hpass ⊢
    cases hst : st tf with
    | none =>
      rw [hst] at hpass
      dsimp only
      rw [if_pos rfl]
    | some prev =>
      rw [hst] at hpass
      dsimp only at hpass ⊢
      by_cases hcond : (prev.1 = event ∧ prev.2 = swings.length)
      · rw [if_pos hcond] at hpass
        exact absurd hpass.symm hne
      · rw [if_neg hcond] at hpass ⊢
        dsimp only
        rw [if_pos rfl]
  refine ⟨hmem, ?_, ?_⟩
  · intro swings2 hlen
    generalize hgen : (debounceSMS st tf event swings).2 = st2 at hmem ⊢
    unfold debounceSMS
    rw [if_neg hne, hmem]
    dsimp only
    rw [if_pos ⟨rfl, hlen.symm⟩]
  · intro event2 swings2 hne2 hdiff
    generalize hgen : (debounceSMS st tf event swings).2 = st2 at hmem ⊢
    unfold debounceSMS
    rw [if_neg hne2, hmem]
    dsimp only
    have hcond : ¬(event = event2 ∧ swings.length = swings2.length) := by
      rintro ⟨h1, h2⟩
      rcases hdiff with hd | hd
      · exact hd h1.symm
      · exact hd h2.symm
    rw [if_neg hcond]
    refine ⟨rfl, ?_⟩
    dsimp only
    rw [if_pos rfl]

/-- Witness for `debounceSMS_suppression_cycle`: a first SMS_BULLISH on
the 5m timeframe is recorded, the identical repeat is suppressed, and a
direction flip passes through. -/
theorem debounceSMS_suppression_witness :
    ((debounceSMS emptyDebounce .m5 .SMS_BULLISH smsWitSwings).2 .m5 =
      some (.SMS_BULLISH, smsWitSwings.length)) ∧
    (debounceSMS (debounceSMS emptyDebounce .m5 .SMS_BULLISH smsWitSwings).2 .m5
      .SMS_BULLISH smsWitSwings).1 = .NONE ∧
    (debounceSMS (debounceSMS emptyDebounce .m5 .SMS_BULLISH smsWitSwings).2 .m5
      .SMS_BEARISH smsWitSwings).1 = .SMS_BEARISH := by
  have h := debounceSMS_suppression_cycle emptyDebounce .m5 .SMS_BULLISH smsWitSwings
    (by decide) rfl
  exact ⟨h.1, h.2.1 smsWitSwings rfl,
    (h.2.2 .SMS_BEARISH smsWitSwings (by decide) (Or.inl (by decide))).1⟩
